import Mathlib

/-!
Verification of the japanrealestate package (incometaxcalc.py, mortgage.py,
realestatecalc.py, taxconstants.py) against its natural-language specification.

Shallow embedding conventions:
* Python numbers (ints and floats) are modelled as rationals (ℚ); Python
  `int(x)` truncation toward zero is `pyInt`, Python 3 `round` (banker's
  rounding, half to even) is `pyRound`.
* A Python attribute that can hold `None` is an `Option`.
* A method that can raise (`ValueError` from a tax-table lookup or from an
  invalid `is_primary_residence`, `TypeError` from arithmetic on `None`)
  is modelled as returning `none`.
* `datetime.date` is a year/month/day triple with lexicographic comparison;
  `dateutil.relativedelta(years=n)` is `Date.addYears`, which clamps
  Feb 29 to Feb 28 in a non-leap target year.
* `dt.date.today()` is passed in explicitly as a `today : Date` argument.
* Each `_calculate_<field>` method of the source becomes one definition named
  after it; `calculate_all_fields` chains them.  Derived fields are functions
  of the (default-resolved) input fields, matching the source, where every
  derived field is overwritten on each recomputation before being read.
-/

/-- Python `int(x)`: truncation toward zero, as a map ℚ → ℚ. -/
def pyInt (q : ℚ) : ℚ := ((if q < 0 then ⌈q⌉ else ⌊q⌋ : ℤ) : ℚ)

/-- Python 3 `round(x)`: round half to even (banker's rounding). -/
def pyRound (q : ℚ) : ℤ :=
  if q - ⌊q⌋ < 1/2 then ⌊q⌋
  else if (1/2 : ℚ) < q - ⌊q⌋ then ⌊q⌋ + 1
  else if ⌊q⌋ % 2 = 0 then ⌊q⌋ else ⌊q⌋ + 1

/-- Python list slice `l[i:]`, including negative-index semantics
(`l[-k:]` keeps the last `k` elements). -/
def pySliceFrom (l : List ℚ) (i : ℤ) : List ℚ :=
  if 0 ≤ i then l.drop i.toNat else l.drop ((l.length : ℤ) + i).toNat

/-- A `datetime.date`. -/
structure Date where
  year : ℤ
  month : ℤ
  day : ℤ
deriving DecidableEq

/-- Python `date` comparison (lexicographic on year, month, day). -/
def Date.before (a b : Date) : Bool :=
  decide (a.year < b.year) ||
    (decide (a.year = b.year) &&
      (decide (a.month < b.month) ||
        (decide (a.month = b.month) && decide (a.day < b.day))))

/-- Gregorian leap year test (as used by `datetime`). -/
def Date.isLeap (y : ℤ) : Bool :=
  decide (y % 4 = 0) && (decide (¬ y % 100 = 0) || decide (y % 400 = 0))

/-- `d + relativedelta(years = n)`: add to the year, clamping Feb 29 to
Feb 28 when the target year is not a leap year. -/
def Date.addYears (n : ℤ) (d : Date) : Date :=
  if d.month = 2 ∧ d.day = 29 ∧ ¬ Date.isLeap (d.year + n) then
    ⟨d.year + n, 2, 28⟩
  else
    ⟨d.year + n, d.month, d.day⟩

/-- `taxconstants.CONSUMPTION_TAX = 0.08`. -/
def CONSUMPTION_TAX : ℚ := 8/100

/-- `taxconstants.RESTORATION_TAX = 0.021`. -/
def RESTORATION_TAX : ℚ := 21/1000

/-- `taxconstants.RESTORATION_TAX_EXPIRY = dt.date(2038, 1, 1)`. -/
def RESTORATION_TAX_EXPIRY : Date := ⟨2038, 1, 1⟩

/-! ## mortgage.py -/

/-- State of a `Mortgage` object: the three constructor inputs followed by
the derived fields filled in by `Mortgage.calculate_all_fields`. -/
structure Mortgage where
  principal : ℚ
  tenor : ℕ
  rate : ℚ
  loan_periods : List ℚ
  interest_schedule : List ℚ
  principal_schedule : List ℚ
  amortization_schedule : List ℚ
  monthly_payment : ℚ
deriving DecidableEq

/-- `np.pmt(rate, nper, pv)` up to sign: the constant payment of an
amortizing loan (positive for positive `pv`). -/
def annuityPmt (r : ℚ) (nper : ℕ) (pv : ℚ) : ℚ :=
  pv * r * (1 + r)^nper / ((1 + r)^nper - 1)

/-- Remaining balance of the loan after `k` of `nper` payments. -/
def remBalance (r : ℚ) (k nper : ℕ) (pv : ℚ) : ℚ :=
  pv * (1 + r)^k - annuityPmt r nper pv * ((1 + r)^k - 1) / r

/-- `-np.ipmt(rate, per, nper, pv)` for period `per = k + 1`:
the interest portion of payment `k + 1`. -/
def npInterest (r : ℚ) (k nper : ℕ) (pv : ℚ) : ℚ := remBalance r k nper pv * r

/-- `-np.ppmt(rate, per, nper, pv)` for period `per = k + 1`:
the principal portion of payment `k + 1`. -/
def npPrincipal (r : ℚ) (k nper : ℕ) (pv : ℚ) : ℚ :=
  annuityPmt r nper pv - npInterest r k nper pv

/-- `Mortgage.calculate_all_fields`: recompute every derived field of a
mortgage from `principal`, `tenor` and `rate`. -/
def Mortgage.calcAllFields (m : Mortgage) : Mortgage :=
  let n := m.tenor * 12
  let loan_periods : List ℚ := (List.range n).map (fun k => ((k + 1 : ℕ) : ℚ))
  let interest_schedule : List ℚ :=
    if m.tenor = 0 then []
    else if m.rate = 0 then loan_periods.map (fun p => p * 0)
    else (List.range n).map (fun k => npInterest (m.rate / 12) k n m.principal)
  let principal_schedule : List ℚ :=
    if m.tenor = 0 then []
    else if m.rate = 0 then List.replicate n (m.principal / (n : ℚ))
    else (List.range n).map (fun k => npPrincipal (m.rate / 12) k n m.principal)
  let amortization_schedule : List ℚ :=
    if m.tenor = 0 then []
    else List.zipWith (· + ·) interest_schedule principal_schedule
  let monthly_payment : ℚ := amortization_schedule.headD 0
  { m with
    loan_periods := loan_periods
    interest_schedule := interest_schedule
    principal_schedule := principal_schedule
    amortization_schedule := amortization_schedule
    monthly_payment := monthly_payment }

/-- `Mortgage(principal=p, tenor=t, rate=r)`: construction runs
`calculate_all_fields` once. -/
def Mortgage.make (principal : ℚ) (tenor : ℕ) (rate : ℚ) : Mortgage :=
  Mortgage.calcAllFields
    { principal := principal, tenor := tenor, rate := rate
      loan_periods := [], interest_schedule := [], principal_schedule := []
      amortization_schedule := [], monthly_payment := 0 }

/-! ## incometaxcalc.py -/

/-- An entry of `_EMPLOYMENT_INCOME_FOR_TAX_TABLE`: inclusive bounds and the
conversion function. -/
structure EmpRule where
  lo : ℚ
  hi : ℚ
  f : ℚ → ℚ

/-- An entry of `_NATIONAL_INCOME_TAX_TABLE`: inclusive bounds (`hi = none`
models the final bracket's `float('inf')`), marginal rate, and sum of taxes
for all previous brackets. -/
structure NatBracket where
  lo : ℚ
  hi : Option ℚ
  rate : ℚ
  previous_brackets_sum : ℚ
deriving DecidableEq

/-- `IncomeTaxCalc._EMPLOYMENT_INCOME_FOR_TAX_TABLE` (all 12 rows; the float
constants 0.95, 2.4, 2.8, 3.2, 0.9 of the source are the exact rationals). -/
def EMPLOYMENT_INCOME_FOR_TAX_TABLE : List EmpRule :=
  [ ⟨0, 650999, fun _ => 0⟩,
    ⟨651000, 1618999, fun x => x - 650000⟩,
    ⟨1619000, 1619999, fun _ => 969000⟩,
    ⟨1620000, 1621999, fun _ => 970000⟩,
    ⟨1622000, 1623999, fun _ => 972000⟩,
    ⟨1624000, 1627999, fun _ => 974000⟩,
    ⟨1628000, 1799999, fun x => (pyRound (x / (4 * 1000)) : ℚ) * 1000 * (24/10)⟩,
    ⟨1800000, 3599999, fun x => (pyRound (x / (4 * 1000)) : ℚ) * 1000 * (28/10) - 180000⟩,
    ⟨3600000, 6599999, fun x => (pyRound (x / (4 * 1000)) : ℚ) * 1000 * (32/10) - 540000⟩,
    ⟨6600000, 9999999, fun x => x * (9/10) - 1200000⟩,
    ⟨10000000, 11999999, fun x => x * (95/100) - 1700000⟩,
    ⟨12000000, 10000000000000, fun x => x - 2300000⟩ ]

/-- `IncomeTaxCalc._NATIONAL_INCOME_TAX_TABLE` (7 brackets exactly as in the
source, lower bounds written `previous + 1` as there). -/
def NATIONAL_INCOME_TAX_TABLE : List NatBracket :=
  [ ⟨0, some 1950000, 5/100, 0⟩,
    ⟨1950000 + 1, some 3300000, 1/10, 97500⟩,
    ⟨3300000 + 1, some 6950000, 2/10, 232500⟩,
    ⟨6950000 + 1, some 9000000, 23/100, 962500⟩,
    ⟨9000000 + 1, some 18000000, 33/100, 1434000⟩,
    ⟨18000000 + 1, some 40000000, 4/10, 4404000⟩,
    ⟨40000000 + 1, none, 45/100, 13204000⟩ ]

/-- `IncomeTaxCalc.__lookup_in_tax_table` on the employment-income table:
first rule whose inclusive bounds contain the value; `none` models the
`ValueError` raised when no rule matches. -/
def lookupEmpRule (lookup_value : ℚ) : Option EmpRule :=
  EMPLOYMENT_INCOME_FOR_TAX_TABLE.find?
    (fun r => decide (r.lo ≤ lookup_value) && decide (lookup_value ≤ r.hi))

/-- `IncomeTaxCalc.__lookup_in_tax_table` on the national-income-tax table
(`hi = none` is the unbounded final bracket). -/
def lookupNatBracket (lookup_value : ℚ) : Option NatBracket :=
  NATIONAL_INCOME_TAX_TABLE.find?
    (fun r => decide (r.lo ≤ lookup_value) &&
      (match r.hi with
       | none => true
       | some h => decide (lookup_value ≤ h)))

/-- State of an `IncomeTaxCalc` object: the eleven constructor inputs
followed by the derived fields set by `calculate_all_fields`.
`social_security_expense = none` and `current_date = none` are the `None`
defaults that the first recomputation overwrites in place. -/
structure IncomeTaxCalc where
  employment_income : ℚ
  rent : ℚ
  is_rent_program : Bool
  other_income : ℚ
  life_insurance_premium : ℚ
  medical_expense : ℚ
  number_of_dependents : ℚ
  social_security_expense : Option ℚ
  tax_deduction : ℚ
  is_resident_for_tax_purposes : Bool
  current_date : Option Date
  total_income : ℚ
  employment_income_after_rent_program : ℚ
  employment_income_deduction : ℚ
  employment_income_for_tax : ℚ
  total_income_for_tax : ℚ
  deduction_dependents : ℚ
  deduction_total : ℚ
  taxable_income : ℚ
  national_income_tax_bracket : NatBracket
  national_income_tax_rate : ℚ
  national_income_tax : ℚ
  local_income_tax : ℚ
  total_income_tax : ℚ
  net_income_after_tax : ℚ
  effective_tax_rate : ℚ
deriving DecidableEq

/-- `IncomeTaxCalc._DEDUCTION_BASIC`. -/
def DEDUCTION_BASIC : ℚ := 380000

/-- `IncomeTaxCalc._DEDUCTION_PER_DEPENDENT`. -/
def DEDUCTION_PER_DEPENDENT : ℚ := 380000

/-- `IncomeTaxCalc._LEGAL_RENT_RATE = 0.95`. -/
def LEGAL_RENT_RATE : ℚ := 95/100

/-- `IncomeTaxCalc._LOCAL_INCOME_TAX_RATE = 0.04 + 0.06`. -/
def LOCAL_INCOME_TAX_RATE : ℚ := 4/100 + 6/100

/-- `IncomeTaxCalc._HEALTH_INSURANCE_RATE = 0.0996`. -/
def HEALTH_INSURANCE_RATE : ℚ := 996/10000

/-- `IncomeTaxCalc._SOCIAL_PENSION_RATE = 0.183`. -/
def SOCIAL_PENSION_RATE : ℚ := 183/1000

/-- `_calculate_current_date`: default the evaluation date to `today` when
unset, otherwise keep the stored date. -/
def IncomeTaxCalc.currentDateR (today : Date) (c : IncomeTaxCalc) : Date :=
  c.current_date.getD today

/-- `_calculate_total_income`. -/
def IncomeTaxCalc.totalIncomeR (c : IncomeTaxCalc) : ℚ :=
  c.employment_income + c.other_income

/-- `_calculate_employment_income_after_rent_program`
(`is_rent_program * rent * 0.95` with Python bool-as-number). -/
def IncomeTaxCalc.eair (c : IncomeTaxCalc) : ℚ :=
  c.employment_income - (if c.is_rent_program then (1 : ℚ) else 0) * c.rent * LEGAL_RENT_RATE

/-- `_calculate_social_security_expense`: keep an explicitly supplied value,
otherwise estimate half of the capped health-insurance plus pension expense,
truncated to an integer. -/
def IncomeTaxCalc.socialSecurityExpenseR (c : IncomeTaxCalc) : ℚ :=
  match c.social_security_expense with
  | some v => v
  | none =>
      pyInt ((min c.eair (1390000 * 12) * HEALTH_INSURANCE_RATE +
              min c.eair (635000 * 12) * SOCIAL_PENSION_RATE) * (1/2))

/-- `_calculate_employment_income_for_tax` given the matched table rule. -/
def IncomeTaxCalc.employmentIncomeForTaxR (c : IncomeTaxCalc) (rule : EmpRule) : ℚ :=
  min (pyInt (rule.f c.eair)) c.eair

/-- `_calculate_total_income_for_tax` given the matched table rule. -/
def IncomeTaxCalc.totalIncomeForTaxR (c : IncomeTaxCalc) (rule : EmpRule) : ℚ :=
  c.employmentIncomeForTaxR rule + c.other_income

/-- `_calculate_deduction_dependents`. -/
def IncomeTaxCalc.deductionDependentsR (c : IncomeTaxCalc) : ℚ :=
  c.number_of_dependents * DEDUCTION_PER_DEPENDENT

/-- `_calculate_deduction_total`. -/
def IncomeTaxCalc.deductionTotalR (c : IncomeTaxCalc) : ℚ :=
  min 2000000 c.medical_expense + c.socialSecurityExpenseR +
    c.life_insurance_premium + DEDUCTION_BASIC + c.deductionDependentsR

/-- `_calculate_taxable_income`: floored at zero. -/
def IncomeTaxCalc.taxableIncomeR (c : IncomeTaxCalc) (rule : EmpRule) : ℚ :=
  max 0 (c.totalIncomeForTaxR rule - c.deductionTotalR)

/-- `_calculate_national_income_tax` given the matched bracket: marginal tax
above the bracket lower bound plus the sum for previous brackets, times
`1 + RESTORATION_TAX` while the evaluation date precedes the expiry, then
truncated by `int`. -/
def IncomeTaxCalc.nationalIncomeTaxR (today : Date) (c : IncomeTaxCalc)
    (rule : EmpRule) (bracket : NatBracket) : ℚ :=
  let total_tax := bracket.previous_brackets_sum +
    (c.taxableIncomeR rule - bracket.lo) * bracket.rate
  pyInt (if Date.before (c.currentDateR today) RESTORATION_TAX_EXPIRY
         then total_tax * (1 + RESTORATION_TAX) else total_tax)

/-- `_calculate_local_income_tax` (zero for non-residents). -/
def IncomeTaxCalc.localIncomeTaxR (c : IncomeTaxCalc) (rule : EmpRule) : ℚ :=
  (if c.is_resident_for_tax_purposes then (1 : ℚ) else 0) *
    LOCAL_INCOME_TAX_RATE * c.taxableIncomeR rule

/-- `_calculate_total_income_tax`: floored at zero after the direct tax
deduction. -/
def IncomeTaxCalc.totalIncomeTaxR (today : Date) (c : IncomeTaxCalc)
    (rule : EmpRule) (bracket : NatBracket) : ℚ :=
  max 0 (c.nationalIncomeTaxR today rule bracket + c.localIncomeTaxR rule - c.tax_deduction)

/-- `_calculate_net_income_after_tax`. -/
def IncomeTaxCalc.netIncomeAfterTaxR (today : Date) (c : IncomeTaxCalc)
    (rule : EmpRule) (bracket : NatBracket) : ℚ :=
  c.totalIncomeR - c.totalIncomeTaxR today rule bracket - c.socialSecurityExpenseR

/-- `_calculate_effective_tax_rate` (zero-income guard before the division). -/
def IncomeTaxCalc.effectiveTaxRateR (today : Date) (c : IncomeTaxCalc)
    (rule : EmpRule) (bracket : NatBracket) : ℚ :=
  if c.totalIncomeR = 0 then 0
  else 1 - c.netIncomeAfterTaxR today rule bracket / c.totalIncomeR

/-- The state after a successful `IncomeTaxCalc.calculate_all_fields` pass:
the two `None`-defaulted inputs are overwritten in place and every derived
field is set from the matched employment rule and national bracket. -/
def IncomeTaxCalc.mkResult (today : Date) (c : IncomeTaxCalc)
    (rule : EmpRule) (bracket : NatBracket) : IncomeTaxCalc :=
  { c with
    current_date := some (c.currentDateR today)
    social_security_expense := some c.socialSecurityExpenseR
    total_income := c.totalIncomeR
    employment_income_after_rent_program := c.eair
    employment_income_deduction := c.eair - c.employmentIncomeForTaxR rule
    employment_income_for_tax := c.employmentIncomeForTaxR rule
    total_income_for_tax := c.totalIncomeForTaxR rule
    deduction_dependents := c.deductionDependentsR
    deduction_total := c.deductionTotalR
    taxable_income := c.taxableIncomeR rule
    national_income_tax_bracket := bracket
    national_income_tax_rate := bracket.rate
    national_income_tax := c.nationalIncomeTaxR today rule bracket
    local_income_tax := c.localIncomeTaxR rule
    total_income_tax := c.totalIncomeTaxR today rule bracket
    net_income_after_tax := c.netIncomeAfterTaxR today rule bracket
    effective_tax_rate := c.effectiveTaxRateR today rule bracket }

/-- `IncomeTaxCalc.calculate_all_fields`: runs the fixed pipeline; `none`
models the `ValueError` raised when a table lookup finds no matching row.
The second lookup uses the already-floored taxable income. -/
def IncomeTaxCalc.calcAllFields (today : Date) (c : IncomeTaxCalc) : Option IncomeTaxCalc :=
  Option.bind (lookupEmpRule c.eair) fun rule =>
  Option.bind (lookupNatBracket (c.taxableIncomeR rule)) fun bracket =>
  some (c.mkResult today rule bracket)

/-! ## realestatecalc.py -/

/-- The input attributes of a `RealEstateCalc` object, plus the two
reference/owned objects that `calculate_all_fields` reads as state:
`income_tax_calculator` (a non-owned reference, never written) and
`mortgage` (owned; `_calculate_mortgage` only overwrites it when
`purchase_price_financed > 0`, otherwise the previous value is kept).
`purchase_date`, `renewal_income_rate`, `rental_management_rental_fee` and
`rental_management_renewal_fee` default to `None` and are resolved in place
by the first recomputation.  `sale_price` keeps `None` as `none`.
(`building_to_land_share` renders the source's building-to-land split
attribute; `calc_year` is an integer that the cumulative-income recursion
decrements below zero.) -/
structure REInputs where
  purchase_date : Option Date
  purchase_price : ℚ
  building_to_land_share : ℚ
  size : ℚ
  age : ℚ
  mortgage_loan_to_value : ℚ
  bank_valuation_to_actual : ℚ
  mortgage_tenor : ℕ
  mortgage_rate : ℚ
  mortgage_initiation_fees : ℚ
  renovation_cost : ℚ
  agent_fee_variable : ℚ
  agent_fee_fixed : ℚ
  other_transaction_fees : ℚ
  monthly_fees : ℚ
  property_tax_rate : ℚ
  maintenance_per_m2 : ℚ
  useful_life : ℚ
  calc_year : ℤ
  income_tax_calculator : Option IncomeTaxCalc
  gross_rental_yield : ℚ
  renewal_income_rate : Option ℚ
  rental_management_rental_fee : Option ℚ
  rental_management_renewal_fee : Option ℚ
  is_primary_residence : ℤ
  is_resident_for_tax_purposes : Bool
  sale_price : Option ℚ
  mortgage : Option Mortgage
deriving DecidableEq

/-- State of a `RealEstateCalc` object: inputs (with the carried `mortgage`
and `income_tax_calculator` objects) plus every derived field that
`calculate_all_fields` assigns. -/
structure RealEstateCalc where
  inputs : REInputs
  purchase_price_financed : ℚ
  purchase_price_building : ℚ
  purchase_price_land : ℚ
  purchase_agent_fee : ℚ
  purchase_other_transaction_fees : ℚ
  purchase_price_and_fees : ℚ
  purchase_initial_outlay : ℚ
  depreciation_years : ℚ
  depreciation_percentage : ℚ
  depreciation_annual : ℚ
  rental_income : ℚ
  renewal_income : ℚ
  total_income : ℚ
  maintenance_expense : ℚ
  monthly_fees_annualized : ℚ
  rental_management_renewal_expense : ℚ
  rental_management_rental_expense : ℚ
  rental_management_total_expense : ℚ
  property_tax_expense : ℚ
  calc_date : Date
  total_expense : ℚ
  net_income_before_taxes : ℚ
  depreciation : ℚ
  net_income_taxable : ℚ
  home_loan_deduction : ℚ
  income_tax : ℚ
  income_tax_real_estate : ℚ
  net_income_after_taxes : ℚ
  cumulative_net_income : ℚ
  depreciation_cumulative : ℚ
  sale_agent_fee : ℚ
  sale_other_transaction_fees : ℚ
  depreciated_building_value : ℚ
  book_value : ℚ
  sale_proceeds_after_fees : ℚ
  acquisition_cost : ℚ
  capital_gains_tax_primary_residence_deduction : ℚ
  capital_gains : ℚ
  capital_gains_tax_rate : ℚ
  capital_gains_tax : ℚ
  sale_proceeds_net : ℚ
  net_income_on_realestate : ℚ
deriving DecidableEq

/-- `RealEstateCalc._RENEWAL_INCOME_RATE_DEFAULT = 1 / 24`. -/
def RENEWAL_INCOME_RATE_DEFAULT : ℚ := 1/24

/-- `RealEstateCalc._RENTAL_MANAGEMENT_FEE_DEFAULT = 0.05`. -/
def RENTAL_MANAGEMENT_FEE_DEFAULT : ℚ := 5/100

/-- `RealEstateCalc._RENTAL_MANAGEMENT_RENEWAL_DEFAULT = (1/24 + 0.5/24) / 2`. -/
def RENTAL_MANAGEMENT_RENEWAL_DEFAULT : ℚ := (1/24 + (1/2)/24) / 2

/-- `RealEstateCalc._DEPRECIATION_AGE_FACTOR_IF_SECOND_HAND = 0.8`. -/
def DEPRECIATION_AGE_FACTOR_IF_SECOND_HAND : ℚ := 8/10

/-- `RealEstateCalc._CAPITAL_GAINS_TAX_SHORT_NATIONAL = 0.30`. -/
def CAPITAL_GAINS_TAX_SHORT_NATIONAL : ℚ := 3/10

/-- `RealEstateCalc._CAPITAL_GAINS_TAX_SHORT_MUNICIPAL = 0.09`. -/
def CAPITAL_GAINS_TAX_SHORT_MUNICIPAL : ℚ := 9/100

/-- `RealEstateCalc._CAPITAL_GAINS_TAX_LONG_NATIONAL = 0.15`. -/
def CAPITAL_GAINS_TAX_LONG_NATIONAL : ℚ := 15/100

/-- `RealEstateCalc._CAPITAL_GAINS_TAX_LONG_MUNICIPAL = 0.05`. -/
def CAPITAL_GAINS_TAX_LONG_MUNICIPAL : ℚ := 5/100

/-- `RealEstateCalc._CAPITAL_GAINS_TAX_PRIMARY_RESIDENCE_DEDUCTION`. -/
def CAPITAL_GAINS_TAX_PRIMARY_RESIDENCE_DEDUCTION : ℚ := 30000000

/-- The four `None`-defaulting steps at the top of `calculate_all_fields`
(`_calculate_purchase_date`, `_calculate_renewal_income_rate`,
`_calculate_rental_management_rental_fee`,
`_calculate_rental_management_renewal_fee`). -/
def REInputs.resolveDefaults (today : Date) (i : REInputs) : REInputs :=
  { i with
    purchase_date := some (i.purchase_date.getD today)
    renewal_income_rate := some (i.renewal_income_rate.getD RENEWAL_INCOME_RATE_DEFAULT)
    rental_management_rental_fee :=
      some (i.rental_management_rental_fee.getD RENTAL_MANAGEMENT_FEE_DEFAULT)
    rental_management_renewal_fee :=
      some (i.rental_management_renewal_fee.getD RENTAL_MANAGEMENT_RENEWAL_DEFAULT) }

/-- `_calculate_purchase_price_financed`. -/
def REInputs.purchasePriceFinanced (i : REInputs) : ℚ :=
  pyInt (i.purchase_price * i.bank_valuation_to_actual * i.mortgage_loan_to_value)

/-- `_calculate_mortgage`: a fresh `Mortgage` object is created only when the
financed amount is positive; otherwise the previously stored object (possibly
`None`) is left in place. -/
def REInputs.updateMortgage (i : REInputs) : REInputs :=
  if 0 < i.purchasePriceFinanced then
    let m := Mortgage.make i.purchasePriceFinanced i.mortgage_tenor i.mortgage_rate
    { i with mortgage := some m }
  else i

/-- Input resolution performed by one `calculate_all_fields` pass: default
the `None` inputs, then refresh the owned mortgage. -/
def REInputs.resolve (today : Date) (i : REInputs) : REInputs :=
  (i.resolveDefaults today).updateMortgage

/-- `_calculate_purchase_price_building` (8 % consumption tax applies only to
a new building, `age == 0`). -/
def REInputs.purchasePriceBuilding (i : REInputs) : ℚ :=
  if i.age = 0 then
    pyInt (i.purchase_price * i.building_to_land_share) * (1 + CONSUMPTION_TAX)
  else
    pyInt (i.purchase_price * i.building_to_land_share)

/-- `_calculate_purchase_price_land`. -/
def REInputs.purchasePriceLand (i : REInputs) : ℚ :=
  i.purchase_price - i.purchasePriceBuilding

/-- `_calculate_purchase_agent_fee`. -/
def REInputs.purchaseAgentFee (i : REInputs) : ℚ :=
  pyInt ((i.purchase_price * i.agent_fee_variable + i.agent_fee_fixed) * (1 + CONSUMPTION_TAX))

/-- `_calculate_purchase_other_transaction_fees`. -/
def REInputs.purchaseOtherTransactionFees (i : REInputs) : ℚ :=
  pyInt (i.purchase_price * i.other_transaction_fees)

/-- `_calculate_purchase_price_and_fees`. -/
def REInputs.purchasePriceAndFees (i : REInputs) : ℚ :=
  pyInt (i.purchase_price + i.purchaseAgentFee + i.purchaseOtherTransactionFees +
    i.mortgage_initiation_fees + i.renovation_cost)

/-- `_calculate_purchase_initial_outlay`. -/
def REInputs.purchaseInitialOutlay (i : REInputs) : ℚ :=
  i.purchasePriceAndFees - i.purchasePriceFinanced

/-- `_calculate_depreciation_years` (second-hand properties lose 80 % of
their age, truncated down, and never below zero useful years). -/
def REInputs.depreciationYears (i : REInputs) : ℚ :=
  if i.age = 0 then i.useful_life
  else pyInt (i.useful_life - min i.useful_life i.age * DEPRECIATION_AGE_FACTOR_IF_SECOND_HAND)

/-- `_calculate_depreciation_percentage` (zero-guard before the division). -/
def REInputs.depreciationPercentage (i : REInputs) : ℚ :=
  if i.depreciationYears = 0 then 0 else 1 / i.depreciationYears

/-- `_calculate_depreciation_annual`. -/
def REInputs.depreciationAnnual (i : REInputs) : ℚ :=
  pyInt (i.purchasePriceBuilding * i.depreciationPercentage)

/-- `_calculate_rental_income`. -/
def REInputs.rentalIncome (i : REInputs) : ℚ :=
  pyInt (i.purchase_price * i.gross_rental_yield)

/-- `_calculate_renewal_income` (reads the already-resolved renewal rate). -/
def REInputs.renewalIncome (i : REInputs) : ℚ :=
  pyInt (i.renewal_income_rate.getD 0 * i.rentalIncome)

/-- `_calculate_total_income`. -/
def REInputs.totalIncome (i : REInputs) : ℚ :=
  pyInt (i.rentalIncome + i.renewalIncome)

/-- `_calculate_maintenance_expense`. -/
def REInputs.maintenanceExpense (i : REInputs) : ℚ :=
  pyInt (i.maintenance_per_m2 * i.size)

/-- `_calculate_monthly_fees_annualized`. -/
def REInputs.monthlyFeesAnnualized (i : REInputs) : ℚ := i.monthly_fees * 12

/-- `_calculate_rental_management_renewal_expense`. -/
def REInputs.rentalManagementRenewalExpense (i : REInputs) : ℚ :=
  pyInt (i.rentalIncome * i.rental_management_renewal_fee.getD 0 * (1 + CONSUMPTION_TAX))

/-- `_calculate_rental_management_rental_expense`. -/
def REInputs.rentalManagementRentalExpense (i : REInputs) : ℚ :=
  pyInt (i.rentalIncome * i.rental_management_rental_fee.getD 0 * (1 + CONSUMPTION_TAX))

/-- `_calculate_rental_management_total_expense`. -/
def REInputs.rentalManagementTotalExpense (i : REInputs) : ℚ :=
  pyInt (i.rentalManagementRenewalExpense + i.rentalManagementRentalExpense)

/-- `_calculate_property_tax_expense`. -/
def REInputs.propertyTaxExpense (i : REInputs) : ℚ :=
  pyInt (i.purchase_price * i.property_tax_rate)

/-- `_calculate_calc_date`: purchase date shifted by `calc_year` years. -/
def REInputs.calcDate (today : Date) (i : REInputs) : Date :=
  Date.addYears i.calc_year (i.purchase_date.getD today)

/-- `_calculate_total_expense`: recurring expenses, plus twelve monthly
mortgage payments while a mortgage exists and `calc_year` is inside its
tenor. -/
def REInputs.totalExpense (i : REInputs) : ℚ :=
  let base := pyInt (i.maintenanceExpense + i.monthlyFeesAnnualized +
    i.rentalManagementTotalExpense + i.propertyTaxExpense)
  match i.mortgage with
  | some m => if i.calc_year < (m.tenor : ℤ) then base + pyInt (m.monthly_payment * 12) else base
  | none => base

/-- `_calculate_net_income_before_taxes`. -/
def REInputs.netIncomeBeforeTaxes (i : REInputs) : ℚ :=
  i.totalIncome - i.totalExpense

/-- `RealEstateCalc.depreciation_for_year` (the helper shared by
`_calculate_depreciation` and `_calculate_depreciation_cumulative`). -/
def REInputs.depreciationForYear (i : REInputs) (year : ℤ) : ℚ :=
  if (year : ℚ) < i.depreciationYears then i.depreciationAnnual else 0

/-- `_calculate_depreciation` (the figure for `calc_year`). -/
def REInputs.depreciationR (i : REInputs) : ℚ :=
  i.depreciationForYear i.calc_year

/-- `_calculate_net_income_taxable`: zero for a primary residence; otherwise
income after expenses and depreciation, further reduced by the twelve
monthly interest amounts starting at month `calc_year * 12` while the
mortgage is running. -/
def REInputs.netIncomeTaxable (i : REInputs) : ℚ :=
  if i.is_primary_residence ≠ 0 then 0
  else
    let base := i.totalIncome - i.totalExpense - i.depreciationR
    match i.mortgage with
    | some m =>
        if i.calc_year < (m.tenor : ℤ) then
          base - pyInt ((pySliceFrom m.interest_schedule (i.calc_year * 12)).take 12).sum
        else base
    | none => base

/-- `_calculate_home_loan_deduction`: zero unless the qualification
conjunction holds; when it does, 400,000 (new) or 200,000 (second hand),
capped at the remaining loan balance and truncated by `int`. -/
def REInputs.homeLoanDeduction (i : REInputs) : ℚ :=
  match i.mortgage, i.income_tax_calculator with
  | some m, some itc =>
      if i.is_primary_residence ≠ 0 ∧ i.calc_year < 10 ∧ 50 < i.size ∧
          i.calc_year < (m.tenor : ℤ) ∧ itc.taxable_income < 30000000 then
        pyInt (min (if i.age = 0 then (400000 : ℚ) else 200000)
          (pySliceFrom m.amortization_schedule (i.calc_year * 12)).sum)
      else 0
  | _, _ => 0

/-- `_calculate_income_tax`: zero without an attached calculator; otherwise
deep-copy it, override its date with `calc_date`, add the taxable real
estate income to its other income and the home loan deduction to its tax
deduction, recompute the copy, and read its total income tax.  `none`
models a `ValueError` escaping the copy's recomputation. -/
def REInputs.incomeTaxOpt (today : Date) (i : REInputs) : Option ℚ :=
  match i.income_tax_calculator with
  | none => some 0
  | some itc =>
      (IncomeTaxCalc.calcAllFields today
        { itc with
          current_date := some (i.calcDate today)
          other_income := itc.other_income + i.netIncomeTaxable
          tax_deduction := itc.tax_deduction + i.homeLoanDeduction }).map
        IncomeTaxCalc.total_income_tax

/-- `_calculate_income_tax_real_estate`: the increment over the attached
calculator's stored total income tax, floored at zero. -/
def REInputs.incomeTaxRealEstate (i : REInputs) (income_tax : ℚ) : ℚ :=
  match i.income_tax_calculator with
  | none => 0
  | some itc => max 0 (income_tax - itc.total_income_tax)

/-- `_calculate_net_income_after_taxes`. -/
def REInputs.netIncomeAfterTaxes (i : REInputs) (income_tax : ℚ) : ℚ :=
  i.netIncomeBeforeTaxes - i.incomeTaxRealEstate income_tax

/-- `_calculate_depreciation_cumulative`: sum of `depreciation_for_year`
over `range(0, calc_year + 1)`. -/
def REInputs.depreciationCumulative (i : REInputs) : ℚ :=
  ((List.range (i.calc_year + 1).toNat).map (fun x => i.depreciationForYear (x : ℤ))).sum

/-- `_calculate_depreciated_building_value`. -/
def REInputs.depreciatedBuildingValue (i : REInputs) : ℚ :=
  i.purchasePriceBuilding - i.depreciationCumulative

/-- `_calculate_book_value`. -/
def REInputs.bookValue (i : REInputs) : ℚ :=
  i.purchasePriceLand + i.depreciatedBuildingValue

/-- `_calculate_sale_price` as written at `realestatecalc.py:616`: default an
unset sale price to the book value.  `calculate_all_fields` never invokes
this method (see the dispatch list at lines 263–317), which is what claim C2
is about. -/
def REInputs.calculateSalePrice (i : REInputs) : REInputs :=
  match i.sale_price with
  | none => { i with sale_price := some i.bookValue }
  | some _ => i

/-- `_calculate_sale_agent_fee` applied to the sale price the state actually
holds (a `None` sale price makes the multiplication raise `TypeError`). -/
def REInputs.saleAgentFee (i : REInputs) (sp : ℚ) : ℚ :=
  pyInt ((sp * i.agent_fee_variable + i.agent_fee_fixed) * (1 + CONSUMPTION_TAX))

/-- `_calculate_sale_other_transaction_fees`. -/
def REInputs.saleOtherTransactionFees (i : REInputs) (sp : ℚ) : ℚ :=
  pyInt (sp * i.other_transaction_fees)

/-- `_calculate_sale_proceeds_after_fees`. -/
def REInputs.saleProceedsAfterFees (i : REInputs) (sp : ℚ) : ℚ :=
  sp - i.saleAgentFee sp - i.saleOtherTransactionFees sp

/-- `_calculate_acquisition_cost`. -/
def REInputs.acquisitionCost (i : REInputs) : ℚ :=
  i.purchase_price + i.purchaseAgentFee + i.purchaseOtherTransactionFees

/-- `_calculate_capital_gains_tax_primary_residence_deduction`: 30,000,000
per owned share for codes 0, 1, 2; any other code raises `ValueError`. -/
def REInputs.primaryResidenceDeductionOpt (i : REInputs) : Option ℚ :=
  if i.is_primary_residence = 0 ∨ i.is_primary_residence = 1 ∨ i.is_primary_residence = 2 then
    some (CAPITAL_GAINS_TAX_PRIMARY_RESIDENCE_DEDUCTION * (i.is_primary_residence : ℚ))
  else none

/-- `_calculate_capital_gains`: floored at zero. -/
def REInputs.capitalGains (i : REInputs) (sp : ℚ) : ℚ :=
  max 0 (i.saleProceedsAfterFees sp - (i.acquisitionCost - i.depreciationCumulative))

/-- `_calculate_capital_gains_tax_rate`: short-term below five years,
municipal part only for residents, restoration surcharge while `calc_date`
precedes the expiry. -/
def REInputs.capitalGainsTaxRate (today : Date) (i : REInputs) : ℚ :=
  let base :=
    if i.calc_year < 5 then
      CAPITAL_GAINS_TAX_SHORT_NATIONAL +
        (if i.is_resident_for_tax_purposes then CAPITAL_GAINS_TAX_SHORT_MUNICIPAL else 0)
    else
      CAPITAL_GAINS_TAX_LONG_NATIONAL +
        (if i.is_resident_for_tax_purposes then CAPITAL_GAINS_TAX_LONG_MUNICIPAL else 0)
  if Date.before (i.calcDate today) RESTORATION_TAX_EXPIRY then
    base * (1 + RESTORATION_TAX)
  else base

/-- `_calculate_capital_gains_tax`: truncated, less the primary-residence
deduction, floored at zero. -/
def REInputs.capitalGainsTax (today : Date) (i : REInputs) (sp prd : ℚ) : ℚ :=
  max 0 (pyInt (i.capitalGains sp * i.capitalGainsTaxRate today - prd))

/-- `_calculate_sale_proceeds_net`. -/
def REInputs.saleProceedsNet (today : Date) (i : REInputs) (sp prd : ℚ) : ℚ :=
  i.saleProceedsAfterFees sp - i.capitalGainsTax today sp prd

/-- The state after a successful `RealEstateCalc.calculate_all_fields` pass
over the resolved inputs `i`, given the values produced at the four
failure-capable steps: the recomputed-copy income tax, the cumulative net
income, the (non-`None`) sale price and the primary-residence deduction. -/
def REInputs.mkResult (today : Date) (i : REInputs)
    (income_tax cumulative sp prd : ℚ) : RealEstateCalc :=
  { inputs := i
    purchase_price_financed := i.purchasePriceFinanced
    purchase_price_building := i.purchasePriceBuilding
    purchase_price_land := i.purchasePriceLand
    purchase_agent_fee := i.purchaseAgentFee
    purchase_other_transaction_fees := i.purchaseOtherTransactionFees
    purchase_price_and_fees := i.purchasePriceAndFees
    purchase_initial_outlay := i.purchaseInitialOutlay
    depreciation_years := i.depreciationYears
    depreciation_percentage := i.depreciationPercentage
    depreciation_annual := i.depreciationAnnual
    rental_income := i.rentalIncome
    renewal_income := i.renewalIncome
    total_income := i.totalIncome
    maintenance_expense := i.maintenanceExpense
    monthly_fees_annualized := i.monthlyFeesAnnualized
    rental_management_renewal_expense := i.rentalManagementRenewalExpense
    rental_management_rental_expense := i.rentalManagementRentalExpense
    rental_management_total_expense := i.rentalManagementTotalExpense
    property_tax_expense := i.propertyTaxExpense
    calc_date := i.calcDate today
    total_expense := i.totalExpense
    net_income_before_taxes := i.netIncomeBeforeTaxes
    depreciation := i.depreciationR
    net_income_taxable := i.netIncomeTaxable
    home_loan_deduction := i.homeLoanDeduction
    income_tax := income_tax
    income_tax_real_estate := i.incomeTaxRealEstate income_tax
    net_income_after_taxes := i.netIncomeAfterTaxes income_tax
    cumulative_net_income := cumulative
    depreciation_cumulative := i.depreciationCumulative
    sale_agent_fee := i.saleAgentFee sp
    sale_other_transaction_fees := i.saleOtherTransactionFees sp
    depreciated_building_value := i.depreciatedBuildingValue
    book_value := i.bookValue
    sale_proceeds_after_fees := i.saleProceedsAfterFees sp
    acquisition_cost := i.acquisitionCost
    capital_gains_tax_primary_residence_deduction := prd
    capital_gains := i.capitalGains sp
    capital_gains_tax_rate := i.capitalGainsTaxRate today
    capital_gains_tax := i.capitalGainsTax today sp prd
    sale_proceeds_net := i.saleProceedsNet today sp prd
    net_income_on_realestate :=
      i.saleProceedsNet today sp prd + cumulative - i.purchasePriceAndFees }

/-- One `calculate_all_fields` pass, parameterized by the function `recur`
used for the `_calculate_cumulative_net_income` recursion (a deep copy of
the mid-pass state — resolved inputs included — with `calc_year` decremented
and fully recomputed).  The four `Option.bind`s are the four places a pass
can raise: the recomputed tax copy, the recursive pass, the `None` sale
price (`TypeError` in `_calculate_sale_agent_fee`), and the
primary-residence code check. -/
def computeBody (today : Date) (recur : REInputs → Option RealEstateCalc)
    (i₀ : REInputs) : Option RealEstateCalc :=
  let i := i₀.resolve today
  Option.bind (i.incomeTaxOpt today) fun income_tax =>
  Option.bind
    (if i.calc_year < 0 then some 0
     else (recur { i with calc_year := i.calc_year - 1 }).map
       (fun t => i.netIncomeAfterTaxes income_tax + t.cumulative_net_income))
    fun cumulative =>
  Option.bind i.sale_price fun sp =>
  Option.bind i.primaryResidenceDeductionOpt fun prd =>
  some (i.mkResult today income_tax cumulative sp prd)

/-- `computeBody` iterated with a fuel bound on the recursion depth.  The
entry point always supplies fuel `(calc_year + 1).toNat`, which is exactly
the depth of the source's recursion (each level decrements `calc_year` by
one and the base case is `calc_year < 0`), so the out-of-fuel `none` is
never reached from `RealEstateCalc.calcAllFields`
(see `computeGo_fuel`). -/
def computeGo (today : Date) : ℕ → REInputs → Option RealEstateCalc
  | 0 => computeBody today (fun _ => none)
  | n + 1 => computeBody today (computeGo today n)

/-- `RealEstateCalc.calculate_all_fields`: one full recomputation of every
derived field, reading only the input attributes (plus the carried
`mortgage` and `income_tax_calculator` objects). -/
def RealEstateCalc.calcAllFields (today : Date) (s : RealEstateCalc) : Option RealEstateCalc :=
  computeGo today (s.inputs.calc_year + 1).toNat s.inputs

/-! ## Specification-side definitions (for refinement comparison) -/

/-- The national income tax table exactly as the specification lists it
(7 brackets, bounds / rates / cumulative sums written with the spec's
literals): "[0,1,950,000]@5%/0; [1,950,001, 3,300,000]@10%/97,500; ...;
[40,000,001,∞)@45%/13,204,000". -/
def SPEC_NATIONAL_TABLE : List NatBracket :=
  [ ⟨0, some 1950000, 5/100, 0⟩,
    ⟨1950001, some 3300000, 10/100, 97500⟩,
    ⟨3300001, some 6950000, 20/100, 232500⟩,
    ⟨6950001, some 9000000, 23/100, 962500⟩,
    ⟨9000001, some 18000000, 33/100, 1434000⟩,
    ⟨18000001, some 40000000, 40/100, 4404000⟩,
    ⟨40000001, none, 45/100, 13204000⟩ ]

/-- The specification's national-income-tax formula: match the taxable
income to the bracket whose inclusive bounds contain it, then
"floor( (taxable_income − bracket.lower_bound) × rate + cumulative_sum_below,
and if evaluation date < 2038-01-01 multiply the whole amount by 1.021
before flooring )"; no matching bracket is an error. -/
def nationalIncomeTaxSpec (ti : ℚ) (surcharge : Bool) : Option ℚ :=
  (SPEC_NATIONAL_TABLE.find? (fun b => decide (b.lo ≤ ti) &&
      (match b.hi with
       | none => true
       | some h => decide (ti ≤ h)))).map
    (fun b =>
      ((⌊if surcharge then ((ti - b.lo) * b.rate + b.previous_brackets_sum) * (1021/1000)
         else (ti - b.lo) * b.rate + b.previous_brackets_sum⌋ : ℤ) : ℚ))

/-! ## Concrete states used by the witnesses -/

/-- A sample evaluation date (before the restoration-tax expiry). -/
def DATE0 : Date := ⟨2017, 1, 6⟩

/-- A later sample date, used to show date stickiness. -/
def DATE1 : Date := ⟨2020, 6, 15⟩

/-- An `IncomeTaxCalc` state fresh from the constructor with every argument
left at its default (derived fields still unset, modelled as zeros /
a placeholder bracket). -/
def baseITC : IncomeTaxCalc :=
  { employment_income := 0, rent := 0, is_rent_program := false, other_income := 0
    life_insurance_premium := 0, medical_expense := 0, number_of_dependents := 0
    social_security_expense := none, tax_deduction := 0
    is_resident_for_tax_purposes := true, current_date := none
    total_income := 0, employment_income_after_rent_program := 0
    employment_income_deduction := 0, employment_income_for_tax := 0
    total_income_for_tax := 0, deduction_dependents := 0, deduction_total := 0
    taxable_income := 0, national_income_tax_bracket := ⟨0, some 1950000, 5/100, 0⟩
    national_income_tax_rate := 0, national_income_tax := 0, local_income_tax := 0
    total_income_tax := 0, net_income_after_tax := 0, effective_tax_rate := 0 }

/-- A `RealEstateCalc` input block with every argument at its constructor
default except an explicit purchase date and a zero sale price. -/
def baseREI : REInputs :=
  { purchase_date := some DATE0, purchase_price := 0, building_to_land_share := 7/10
    size := 0, age := 0, mortgage_loan_to_value := 0, bank_valuation_to_actual := 1
    mortgage_tenor := 0, mortgage_rate := 0, mortgage_initiation_fees := 0
    renovation_cost := 0, agent_fee_variable := 0, agent_fee_fixed := 0
    other_transaction_fees := 0, monthly_fees := 0, property_tax_rate := 0
    maintenance_per_m2 := 1000, useful_life := 47, calc_year := 0
    income_tax_calculator := none, gross_rental_yield := 0
    renewal_income_rate := none, rental_management_rental_fee := none
    rental_management_renewal_fee := none, is_primary_residence := 0
    is_resident_for_tax_purposes := false, sale_price := some 0, mortgage := none }

/-- A `RealEstateCalc` state fresh from the constructor (derived fields
unset, modelled as zeros). -/
def baseRE : RealEstateCalc :=
  { inputs := baseREI
    purchase_price_financed := 0, purchase_price_building := 0
    purchase_price_land := 0, purchase_agent_fee := 0
    purchase_other_transaction_fees := 0, purchase_price_and_fees := 0
    purchase_initial_outlay := 0, depreciation_years := 0
    depreciation_percentage := 0, depreciation_annual := 0, rental_income := 0
    renewal_income := 0, total_income := 0, maintenance_expense := 0
    monthly_fees_annualized := 0, rental_management_renewal_expense := 0
    rental_management_rental_expense := 0, rental_management_total_expense := 0
    property_tax_expense := 0, calc_date := DATE0, total_expense := 0
    net_income_before_taxes := 0, depreciation := 0, net_income_taxable := 0
    home_loan_deduction := 0, income_tax := 0, income_tax_real_estate := 0
    net_income_after_taxes := 0, cumulative_net_income := 0
    depreciation_cumulative := 0, sale_agent_fee := 0
    sale_other_transaction_fees := 0, depreciated_building_value := 0
    book_value := 0, sale_proceeds_after_fees := 0, acquisition_cost := 0
    capital_gains_tax_primary_residence_deduction := 0, capital_gains := 0
    capital_gains_tax_rate := 0, capital_gains_tax := 0, sale_proceeds_net := 0
    net_income_on_realestate := 0 }

/-- `baseRE` with calc year 1 (used to exercise the recursion). -/
def baseRE1 : RealEstateCalc := { baseRE with inputs := { baseREI with calc_year := 1 } }

/-- `baseRE` with an attached income-tax profile. -/
def baseREitc : RealEstateCalc :=
  { baseRE with inputs := { baseREI with income_tax_calculator := some baseITC } }

/-! ## Helper lemmas -/

theorem optSomeGetD {α : Type} {o : Option α} (d : α) (h : o.isSome = true) :
    o = some (o.getD d) := by
  cases o <;> simp_all

theorem pyInt_of_nonneg {q : ℚ} (h : 0 ≤ q) : pyInt q = ((⌊q⌋ : ℤ) : ℚ) := by
  rw [pyInt, if_neg (not_lt.mpr h)]

theorem IncomeTaxCalc.calcAllFields_some {today : Date} {c c' : IncomeTaxCalc}
    (h : IncomeTaxCalc.calcAllFields today c = some c') :
    ∃ rule, lookupEmpRule c.eair = some rule ∧
      ∃ bracket, lookupNatBracket (c.taxableIncomeR rule) = some bracket ∧
        c.mkResult today rule bracket = c' := by
  simpa only [IncomeTaxCalc.calcAllFields, Option.bind_eq_some, Option.some.injEq]
    using h

/-! ## Claim C5: degenerate and zero-rate mortgage schedules -/

/-- C5.  A zero-tenor mortgage has empty interest, principal and
total-payment schedules and a zero monthly payment; and for any principal
P > 0 and tenor T > 0 at a zero annual rate, every principal-schedule entry
is exactly P/(T*12), every interest entry is 0, and the principal schedule
sums to P. -/
theorem claim_mortgage_degenerate_and_zero_rate (P R : ℚ) (T : ℕ) :
    ((Mortgage.make P 0 R).interest_schedule = [] ∧
     (Mortgage.make P 0 R).principal_schedule = [] ∧
     (Mortgage.make P 0 R).amortization_schedule = [] ∧
     (Mortgage.make P 0 R).monthly_payment = 0) ∧
    (0 < P → 0 < T →
      ((∀ x ∈ (Mortgage.make P T 0).principal_schedule, x = P / ((T : ℚ) * 12)) ∧
       (∀ x ∈ (Mortgage.make P T 0).interest_schedule, x = 0) ∧
       (Mortgage.make P T 0).principal_schedule.sum = P)) := by
  constructor
  · simp [Mortgage.make, Mortgage.calcAllFields]
  · intro _ hT
    have hT0 : T ≠ 0 := by omega
    have hT12 : ((T * 12 : ℕ) : ℚ) ≠ 0 := by positivity
    have hps : (Mortgage.make P T 0).principal_schedule =
        List.replicate (T * 12) (P / ((T * 12 : ℕ) : ℚ)) := by
      simp [Mortgage.make, Mortgage.calcAllFields, hT0]
    have his : (Mortgage.make P T 0).interest_schedule =
        List.replicate (T * 12) 0 := by
      simp only [Mortgage.make, Mortgage.calcAllFields, hT0, if_false, if_pos rfl,
        ite_false, ite_true, mul_zero]
      simp [Function.comp_def, List.map_const']
    refine ⟨?_, ?_, ?_⟩
    · intro x hx
      rw [hps] at hx
      rcases List.eq_of_mem_replicate hx with rfl
      push_cast
      ring
    · intro x hx
      rw [his] at hx
      exact List.eq_of_mem_replicate hx
    · rw [hps, List.sum_replicate, nsmul_eq_mul]
      field_simp

/-- C5 witness: both halves instantiated at P = 200000, T = 30. -/
theorem claim_mortgage_degenerate_and_zero_rate_witness :
    (Mortgage.make 200000 0 (65/1000)).monthly_payment = 0 ∧
    (Mortgage.make 200000 30 0).principal_schedule.sum = 200000 :=
  ⟨(claim_mortgage_degenerate_and_zero_rate 200000 (65/1000) 30).1.2.2.2,
   ((claim_mortgage_degenerate_and_zero_rate 200000 0 30).2 (by norm_num)
     (by norm_num)).2.2⟩

/-! ## Claim C6: non-negativity invariants of the income-tax pipeline -/

/-- C6.  Whatever the profile's inputs (negative other income and
arbitrarily large deductions included), a completed recomputation leaves a
non-negative taxable income and a non-negative total income tax. -/
theorem claim_tax_nonneg_invariants (today : Date) (c c' : IncomeTaxCalc)
    (h : IncomeTaxCalc.calcAllFields today c = some c') :
    0 ≤ c'.taxable_income ∧ 0 ≤ c'.total_income_tax := by
  obtain ⟨rule, _, bracket, _, rfl⟩ := IncomeTaxCalc.calcAllFields_some h
  refine ⟨?_, ?_⟩ <;>
    simp [IncomeTaxCalc.mkResult, IncomeTaxCalc.taxableIncomeR,
      IncomeTaxCalc.totalIncomeTaxR]

/-- C6 witness: the invariants at a default-constructed profile. -/
theorem claim_tax_nonneg_invariants_witness :
    0 ≤ ((IncomeTaxCalc.calcAllFields DATE0 baseITC).getD baseITC).taxable_income ∧
    0 ≤ ((IncomeTaxCalc.calcAllFields DATE0 baseITC).getD baseITC).total_income_tax :=
  claim_tax_nonneg_invariants DATE0 baseITC _
    (optSomeGetD baseITC (by
      norm_num [IncomeTaxCalc.calcAllFields, lookupEmpRule, lookupNatBracket,
        EMPLOYMENT_INCOME_FOR_TAX_TABLE, NATIONAL_INCOME_TAX_TABLE, baseITC,
        IncomeTaxCalc.eair, IncomeTaxCalc.taxableIncomeR,
        IncomeTaxCalc.totalIncomeForTaxR, IncomeTaxCalc.employmentIncomeForTaxR,
        IncomeTaxCalc.deductionTotalR, IncomeTaxCalc.deductionDependentsR,
        IncomeTaxCalc.socialSecurityExpenseR, HEALTH_INSURANCE_RATE,
        SOCIAL_PENSION_RATE, DEDUCTION_BASIC, DEDUCTION_PER_DEPENDENT,
        LEGAL_RENT_RATE, pyInt, List.find?]))

/-! ## Claim C3: the national income tax formula and bracket table -/

theorem spec_table_eq_source : SPEC_NATIONAL_TABLE = NATIONAL_INCOME_TAX_TABLE := by
  norm_num [SPEC_NATIONAL_TABLE, NATIONAL_INCOME_TAX_TABLE]

theorem natbracket_nonneg :
    ∀ b ∈ NATIONAL_INCOME_TAX_TABLE, 0 ≤ b.rate ∧ 0 ≤ b.previous_brackets_sum := by
  intro b hb
  fin_cases hb <;> norm_num

theorem lookupNatBracket_lo_le {ti : ℚ} {b : NatBracket}
    (h : lookupNatBracket ti = some b) : b.lo ≤ ti := by
  have hp := List.find?_some h
  simp only [Bool.and_eq_true, decide_eq_true_eq] at hp
  exact hp.1

theorem natTaxSpec_as_lookup (ti : ℚ) (sur : Bool) :
    nationalIncomeTaxSpec ti sur =
      (lookupNatBracket ti).map (fun b =>
        ((⌊if sur then ((ti - b.lo) * b.rate + b.previous_brackets_sum) * (1021/1000)
           else (ti - b.lo) * b.rate + b.previous_brackets_sum⌋ : ℤ) : ℚ)) := by
  rw [nationalIncomeTaxSpec, lookupNatBracket, spec_table_eq_source]

/-- C3.  After any completed recomputation, the national income tax is the
floor of (taxable income − matched bracket lower bound) × rate plus the
bracket's cumulative sum, the whole amount multiplied by 1.021 before
flooring exactly when the evaluation date is strictly before 2038-01-01,
with the bracket matched in the spec's 7-row table. -/
theorem claim_national_income_tax_formula (today : Date) (c c' : IncomeTaxCalc)
    (h : IncomeTaxCalc.calcAllFields today c = some c') :
    nationalIncomeTaxSpec c'.taxable_income
      (Date.before (c'.current_date.getD today) RESTORATION_TAX_EXPIRY) =
      some c'.national_income_tax := by
  obtain ⟨rule, _, bracket, hb, rfl⟩ := IncomeTaxCalc.calcAllFields_some h
  have hmem : bracket ∈ NATIONAL_INCOME_TAX_TABLE := List.mem_of_find?_eq_some hb
  have hnn := natbracket_nonneg bracket hmem
  have hlo := lookupNatBracket_lo_le hb
  have hti : (c.mkResult today rule bracket).taxable_income = c.taxableIncomeR rule := by
    simp [IncomeTaxCalc.mkResult]
  have hcd : (c.mkResult today rule bracket).current_date.getD today =
      c.currentDateR today := by
    simp [IncomeTaxCalc.mkResult]
  have hnt : (c.mkResult today rule bracket).national_income_tax =
      c.nationalIncomeTaxR today rule bracket := by
    simp [IncomeTaxCalc.mkResult]
  rw [hti, hcd, hnt, natTaxSpec_as_lookup, hb, Option.map_some', Option.some.injEq]
  have htot : 0 ≤ bracket.previous_brackets_sum +
      (c.taxableIncomeR rule - bracket.lo) * bracket.rate := by
    have := mul_nonneg (sub_nonneg.mpr hlo) hnn.1
    linarith [hnn.2]
  rw [IncomeTaxCalc.nationalIncomeTaxR]
  by_cases hsur : Date.before (c.currentDateR today) RESTORATION_TAX_EXPIRY = true
  · rw [if_pos hsur, if_pos hsur,
      pyInt_of_nonneg (mul_nonneg htot (by norm_num [RESTORATION_TAX]))]
    rw [show ((c.taxableIncomeR rule - bracket.lo) * bracket.rate +
        bracket.previous_brackets_sum) * (1021/1000) =
        (bracket.previous_brackets_sum +
          (c.taxableIncomeR rule - bracket.lo) * bracket.rate) *
          (1 + RESTORATION_TAX) from by rw [RESTORATION_TAX]; ring]
  · rw [if_neg hsur, if_neg hsur, pyInt_of_nonneg htot]
    rw [show (c.taxableIncomeR rule - bracket.lo) * bracket.rate +
        bracket.previous_brackets_sum = bracket.previous_brackets_sum +
        (c.taxableIncomeR rule - bracket.lo) * bracket.rate from by ring]

/-- C3 witness: the formula at a default-constructed profile. -/
theorem claim_national_income_tax_formula_witness :
    nationalIncomeTaxSpec
        ((IncomeTaxCalc.calcAllFields DATE0 baseITC).getD baseITC).taxable_income
        (Date.before
          (((IncomeTaxCalc.calcAllFields DATE0 baseITC).getD baseITC).current_date.getD
            DATE0) RESTORATION_TAX_EXPIRY) =
      some ((IncomeTaxCalc.calcAllFields DATE0 baseITC).getD baseITC).national_income_tax :=
  claim_national_income_tax_formula DATE0 baseITC _
    (optSomeGetD baseITC (by
      norm_num [IncomeTaxCalc.calcAllFields, lookupEmpRule, lookupNatBracket,
        EMPLOYMENT_INCOME_FOR_TAX_TABLE, NATIONAL_INCOME_TAX_TABLE, baseITC,
        IncomeTaxCalc.eair, IncomeTaxCalc.taxableIncomeR,
        IncomeTaxCalc.totalIncomeForTaxR, IncomeTaxCalc.employmentIncomeForTaxR,
        IncomeTaxCalc.deductionTotalR, IncomeTaxCalc.deductionDependentsR,
        IncomeTaxCalc.socialSecurityExpenseR, HEALTH_INSURANCE_RATE,
        SOCIAL_PENSION_RATE, DEDUCTION_BASIC, DEDUCTION_PER_DEPENDENT,
        LEGAL_RENT_RATE, pyInt, List.find?]))

/-! ## Claim C10: stickiness of the auto-estimated social security expense
and of the defaulted evaluation date -/

/-- C10.  When a profile is recomputed with `social_security_expense` unset,
the estimate is stored into the input field itself; a later recomputation —
here with `employment_income`, `rent` and the rent-program flag changed and
an arbitrary new "today" — reuses the stored value unchanged (and likewise
keeps the defaulted evaluation date). -/
theorem claim_social_security_stickiness (today today2 : Date)
    (c c' c'' : IncomeTaxCalc) (e r : ℚ) (b : Bool)
    (h1 : IncomeTaxCalc.calcAllFields today c = some c')
    (hss : c.social_security_expense = none)
    (h2 : IncomeTaxCalc.calcAllFields today2
      { c' with employment_income := e, rent := r, is_rent_program := b } = some c'') :
    c'.social_security_expense =
      some (pyInt ((min c.eair (1390000 * 12) * HEALTH_INSURANCE_RATE +
        min c.eair (635000 * 12) * SOCIAL_PENSION_RATE) * (1/2))) ∧
    c'.current_date = some (c.current_date.getD today) ∧
    c''.social_security_expense = c'.social_security_expense ∧
    c''.current_date = c'.current_date := by
  obtain ⟨rule1, _, br1, _, h1'⟩ := IncomeTaxCalc.calcAllFields_some h1
  subst h1'
  obtain ⟨rule2, _, br2, _, h2'⟩ := IncomeTaxCalc.calcAllFields_some h2
  subst h2'
  refine ⟨?_, ?_, ?_, ?_⟩ <;>
    simp [IncomeTaxCalc.mkResult, IncomeTaxCalc.socialSecurityExpenseR,
      IncomeTaxCalc.currentDateR, hss]

/-- C10 witness: the stickiness at a default-constructed profile, recomputed
a second time with a changed employment income, rent, rent-program flag and
a different "today". -/
theorem claim_social_security_stickiness_witness :
    ((IncomeTaxCalc.calcAllFields DATE0 baseITC).getD baseITC).social_security_expense =
        some (pyInt ((min baseITC.eair (1390000 * 12) * HEALTH_INSURANCE_RATE +
          min baseITC.eair (635000 * 12) * SOCIAL_PENSION_RATE) * (1/2))) ∧
    ((IncomeTaxCalc.calcAllFields DATE0 baseITC).getD baseITC).current_date =
        some (baseITC.current_date.getD DATE0) ∧
    ((IncomeTaxCalc.calcAllFields DATE1
        { (IncomeTaxCalc.calcAllFields DATE0 baseITC).getD baseITC with
          employment_income := 600000, rent := 10000,
          is_rent_program := true }).getD baseITC).social_security_expense =
      ((IncomeTaxCalc.calcAllFields DATE0 baseITC).getD baseITC).social_security_expense ∧
    ((IncomeTaxCalc.calcAllFields DATE1
        { (IncomeTaxCalc.calcAllFields DATE0 baseITC).getD baseITC with
          employment_income := 600000, rent := 10000,
          is_rent_program := true }).getD baseITC).current_date =
      ((IncomeTaxCalc.calcAllFields DATE0 baseITC).getD baseITC).current_date :=
  claim_social_security_stickiness DATE0 DATE1 baseITC _ _ 600000 10000 true
    (optSomeGetD baseITC (by
      norm_num [IncomeTaxCalc.calcAllFields, lookupEmpRule, lookupNatBracket,
        EMPLOYMENT_INCOME_FOR_TAX_TABLE, NATIONAL_INCOME_TAX_TABLE, baseITC,
        IncomeTaxCalc.eair, IncomeTaxCalc.taxableIncomeR,
        IncomeTaxCalc.totalIncomeForTaxR, IncomeTaxCalc.employmentIncomeForTaxR,
        IncomeTaxCalc.deductionTotalR, IncomeTaxCalc.deductionDependentsR,
        IncomeTaxCalc.socialSecurityExpenseR, HEALTH_INSURANCE_RATE,
        SOCIAL_PENSION_RATE, DEDUCTION_BASIC, DEDUCTION_PER_DEPENDENT,
        LEGAL_RENT_RATE, pyInt, List.find?]))
    rfl
    (optSomeGetD baseITC (by
      norm_num [IncomeTaxCalc.calcAllFields, lookupEmpRule, lookupNatBracket,
        EMPLOYMENT_INCOME_FOR_TAX_TABLE, NATIONAL_INCOME_TAX_TABLE, baseITC,
        IncomeTaxCalc.eair, IncomeTaxCalc.taxableIncomeR, IncomeTaxCalc.mkResult,
        IncomeTaxCalc.totalIncomeForTaxR, IncomeTaxCalc.employmentIncomeForTaxR,
        IncomeTaxCalc.deductionTotalR, IncomeTaxCalc.deductionDependentsR,
        IncomeTaxCalc.socialSecurityExpenseR, IncomeTaxCalc.currentDateR,
        HEALTH_INSURANCE_RATE, SOCIAL_PENSION_RATE, DEDUCTION_BASIC,
        DEDUCTION_PER_DEPENDENT, LEGAL_RENT_RATE, pyInt, List.find?]))

/-! ## Real-estate recomputation: structural lemmas -/

theorem REInputs.resolve_preserves (today : Date) (i : REInputs) :
    (i.resolve today).calc_year = i.calc_year ∧
    (i.resolve today).is_primary_residence = i.is_primary_residence ∧
    (i.resolve today).sale_price = i.sale_price ∧
    (i.resolve today).income_tax_calculator = i.income_tax_calculator := by
  simp only [REInputs.resolve, REInputs.resolveDefaults, REInputs.updateMortgage]
  split <;> exact ⟨rfl, rfl, rfl, rfl⟩

theorem REInputs.resolve_resolve (today today2 : Date) (i : REInputs) :
    (i.resolve today).resolve today2 = i.resolve today := by
  rcases i with ⟨pd, pp, blr, sz, ag, mltv, bva, mt, mr, mif, rc, afv, aff, otf, mf,
    ptr, mpm, ul, cy, itc, gry, rir, rmrf, rmnf, ipr, irt, sp, mg⟩
  simp only [REInputs.resolve, REInputs.resolveDefaults, REInputs.updateMortgage,
    REInputs.purchasePriceFinanced, Option.getD_some]
  split
  case isTrue h => simp only [Option.getD_some]
  case isFalse h => simp only [Option.getD_some]

theorem REInputs.resolve_set_calc_year (today today2 : Date) (i : REInputs) (v : ℤ) :
    ({ i.resolve today with calc_year := v }).resolve today2 =
      { i.resolve today with calc_year := v } := by
  rcases i with ⟨pd, pp, blr, sz, ag, mltv, bva, mt, mr, mif, rc, afv, aff, otf, mf,
    ptr, mpm, ul, cy, itc, gry, rir, rmrf, rmnf, ipr, irt, sp, mg⟩
  simp only [REInputs.resolve, REInputs.resolveDefaults, REInputs.updateMortgage,
    REInputs.purchasePriceFinanced, Option.getD_some]
  split
  case isTrue h => simp only [Option.getD_some]
  case isFalse h => simp only [Option.getD_some]

theorem computeBody_some {today : Date} {recur : REInputs → Option RealEstateCalc}
    {i₀ : REInputs} {s : RealEstateCalc} (h : computeBody today recur i₀ = some s) :
    ∃ it, (i₀.resolve today).incomeTaxOpt today = some it ∧
    ∃ cum, (if (i₀.resolve today).calc_year < 0 then some (0 : ℚ)
        else (recur { i₀.resolve today with
            calc_year := (i₀.resolve today).calc_year - 1 }).map
          (fun t => (i₀.resolve today).netIncomeAfterTaxes it +
            t.cumulative_net_income)) = some cum ∧
    ∃ sp, (i₀.resolve today).sale_price = some sp ∧
    ∃ prd, (i₀.resolve today).primaryResidenceDeductionOpt = some prd ∧
      (i₀.resolve today).mkResult today it cum sp prd = s := by
  simpa only [computeBody, Option.bind_eq_some, Option.some.injEq] using h

theorem computeBody_congr {today : Date} {recur recur' : REInputs → Option RealEstateCalc}
    {i : REInputs}
    (h : recur { i.resolve today with calc_year := (i.resolve today).calc_year - 1 } =
         recur' { i.resolve today with calc_year := (i.resolve today).calc_year - 1 }) :
    computeBody today recur i = computeBody today recur' i := by
  simp only [computeBody, h]

theorem computeBody_congr_neg {today : Date}
    {recur recur' : REInputs → Option RealEstateCalc} {i : REInputs}
    (h : (i.resolve today).calc_year < 0) :
    computeBody today recur i = computeBody today recur' i := by
  simp only [computeBody, if_pos h]

theorem computeGo_fuel (today : Date) :
    ∀ n (i : REInputs), (i.calc_year + 1).toNat ≤ n →
      computeGo today n i = computeGo today (i.calc_year + 1).toNat i := by
  intro n
  induction n with
  | zero =>
    intro i h
    have h0 : (i.calc_year + 1).toNat = 0 := by omega
    rw [h0]
  | succ n ih =>
    intro i h
    by_cases hy : i.calc_year < 0
    · have h0 : (i.calc_year + 1).toNat = 0 := by omega
      rw [h0]
      exact computeBody_congr_neg (by
        rw [(REInputs.resolve_preserves today i).1]; exact hy)
    · have hnat : (i.calc_year + 1).toNat = i.calc_year.toNat + 1 := by omega
      rw [hnat]
      show computeBody today (computeGo today n) i =
        computeBody today (computeGo today i.calc_year.toNat) i
      apply computeBody_congr
      have hjy : ({ i.resolve today with
          calc_year := (i.resolve today).calc_year - 1 }).calc_year =
          i.calc_year - 1 := by
        show (i.resolve today).calc_year - 1 = i.calc_year - 1
        rw [(REInputs.resolve_preserves today i).1]
      have hj : (({ i.resolve today with
          calc_year := (i.resolve today).calc_year - 1 }).calc_year + 1).toNat =
          i.calc_year.toNat := by rw [hjy]; omega
      rw [ih _ (by rw [hj]; omega), hj]

theorem computeGo_eq_body (today : Date) (n : ℕ) (i : REInputs) :
    ∃ recur, computeGo today n i = computeBody today recur i := by
  cases n with
  | zero => exact ⟨fun _ => none, rfl⟩
  | succ n => exact ⟨computeGo today n, rfl⟩

theorem computeGo_resolve (today : Date) (n : ℕ) (i : REInputs) :
    computeGo today n (i.resolve today) = computeGo today n i := by
  cases n with
  | zero =>
    show computeBody _ _ _ = computeBody _ _ _
    simp only [computeBody, REInputs.resolve_resolve]
  | succ n =>
    show computeBody _ _ _ = computeBody _ _ _
    simp only [computeBody, REInputs.resolve_resolve]

theorem computeGo_inputs {today : Date} {n : ℕ} {i : REInputs} {s : RealEstateCalc}
    (h : computeGo today n i = some s) : s.inputs = i.resolve today := by
  obtain ⟨recur, hr⟩ := computeGo_eq_body today n i
  rw [hr] at h
  obtain ⟨it, _, cum, _, sp, _, prd, _, hm⟩ := computeBody_some h
  rw [← hm]
  rfl

theorem computeGo_cum_neg {today : Date} {n : ℕ} {i : REInputs} {s : RealEstateCalc}
    (h : computeGo today n i = some s) (hy : i.calc_year < 0) :
    s.cumulative_net_income = 0 := by
  obtain ⟨recur, hr⟩ := computeGo_eq_body today n i
  rw [hr] at h
  obtain ⟨it, _, cum, hc, sp, _, prd, _, hm⟩ := computeBody_some h
  rw [if_pos (by rw [(REInputs.resolve_preserves today i).1]; exact hy),
    Option.some.injEq] at hc
  rw [← hm, ← hc]
  rfl

/-! ## Claim C9: recomputation is idempotent -/

/-- C9.  Recomputing a scenario that was just recomputed (no input changed
in between) reproduces exactly the same state — every derived field
included. -/
theorem claim_recompute_idempotent (today : Date) (s s' : RealEstateCalc)
    (h : RealEstateCalc.calcAllFields today s = some s') :
    RealEstateCalc.calcAllFields today s' = some s' := by
  rw [RealEstateCalc.calcAllFields] at h
  have hi : s'.inputs = s.inputs.resolve today := computeGo_inputs h
  rw [RealEstateCalc.calcAllFields, hi, (REInputs.resolve_preserves today s.inputs).1,
    computeGo_resolve]
  exact h

/-! ## Claim C8: the attached tax profile is never modified -/

/-- C8.  A full recomputation (whose income-tax step deep-copies the
attached profile, overrides the copy's date, other income and tax deduction
and recomputes the copy) leaves the attached profile object — all of its
input and derived fields — unchanged. -/
theorem claim_attached_profile_unchanged (today : Date) (s s' : RealEstateCalc)
    (itc : IncomeTaxCalc) (hc : s.inputs.income_tax_calculator = some itc)
    (h : RealEstateCalc.calcAllFields today s = some s') :
    s'.inputs.income_tax_calculator = some itc := by
  rw [RealEstateCalc.calcAllFields] at h
  rw [computeGo_inputs h, (REInputs.resolve_preserves today s.inputs).2.2.2, hc]

/-! ## Claim C2: the unset sale price is never defaulted by the pipeline -/

theorem computeBody_sale_none {today : Date}
    {recur : REInputs → Option RealEstateCalc} {i : REInputs}
    (h : (i.resolve today).sale_price = none) :
    computeBody today recur i = none := by
  simp only [computeBody]
  rw [Option.bind_eq_none]
  intro it _
  rw [Option.bind_eq_none]
  intro cum _
  rw [h]
  rfl

/-- C2 (recorded as a code bug).  The source keeps a `_calculate_sale_price`
method that defaults an unset sale price to the book value (embedded above
as `REInputs.calculateSalePrice`, and asserted by the docstring and the unit
test), but `calculate_all_fields` never calls it: a full recomputation of a
scenario whose `sale_price` is `None` fails (`TypeError` on
`None * agent_fee_variable` in `_calculate_sale_agent_fee`) instead of using
the book value. -/
theorem claim_unset_sale_price_fails (today : Date) (s : RealEstateCalc)
    (hsp : s.inputs.sale_price = none) :
    RealEstateCalc.calcAllFields today s = none := by
  rw [RealEstateCalc.calcAllFields]
  obtain ⟨recur, hr⟩ := computeGo_eq_body today (s.inputs.calc_year + 1).toNat s.inputs
  rw [hr]
  exact computeBody_sale_none (by
    rw [(REInputs.resolve_preserves today s.inputs).2.2.1]; exact hsp)

/-- C2 witness: the failure at a concrete scenario with an unset sale
price.  (The dead defaulting method itself behaves as documented:
second conjunct.) -/
theorem claim_unset_sale_price_fails_witness :
    RealEstateCalc.calcAllFields DATE0
      { baseRE with inputs := { baseREI with sale_price := none } } = none ∧
    ({ baseREI with sale_price := none }.calculateSalePrice).sale_price =
      some ({ baseREI with sale_price := none }.bookValue) :=
  ⟨claim_unset_sale_price_fails DATE0
      { baseRE with inputs := { baseREI with sale_price := none } } rfl,
   rfl⟩

/-! ## Claim C7: primary-residence code validation -/

theorem computeBody_prd_none {today : Date}
    {recur : REInputs → Option RealEstateCalc} {i : REInputs}
    (h : (i.resolve today).primaryResidenceDeductionOpt = none) :
    computeBody today recur i = none := by
  simp only [computeBody]
  rw [Option.bind_eq_none]
  intro it _
  rw [Option.bind_eq_none]
  intro cum _
  rw [Option.bind_eq_none]
  intro sp _
  rw [h]
  rfl

/-- C7.  With a primary-residence code in {0, 1, 2} a successful
recomputation sets the capital-gains primary-residence deduction to
30,000,000 × code; with any other code the recomputation raises
(`ValueError`) and produces no state at all, rather than clamping. -/
theorem claim_primary_residence_deduction_validation (today : Date)
    (s : RealEstateCalc) :
    (∀ s', RealEstateCalc.calcAllFields today s = some s' →
      (s.inputs.is_primary_residence = 0 ∨ s.inputs.is_primary_residence = 1 ∨
        s.inputs.is_primary_residence = 2) ∧
      s'.capital_gains_tax_primary_residence_deduction =
        30000000 * (s.inputs.is_primary_residence : ℚ)) ∧
    (¬(s.inputs.is_primary_residence = 0 ∨ s.inputs.is_primary_residence = 1 ∨
        s.inputs.is_primary_residence = 2) →
      RealEstateCalc.calcAllFields today s = none) := by
  have hpr := (REInputs.resolve_preserves today s.inputs).2.1
  constructor
  · intro s' h
    rw [RealEstateCalc.calcAllFields] at h
    obtain ⟨recur, hr⟩ := computeGo_eq_body today (s.inputs.calc_year + 1).toNat s.inputs
    rw [hr] at h
    obtain ⟨it, _, cum, _, sp, _, prd, hprd, hm⟩ := computeBody_some h
    rw [REInputs.primaryResidenceDeductionOpt] at hprd
    split at hprd
    case isTrue hv =>
      rw [hpr] at hv
      refine ⟨hv, ?_⟩
      rw [← hm]
      rw [show ((s.inputs.resolve today).mkResult today it cum sp
          prd).capital_gains_tax_primary_residence_deduction = prd from rfl]
      rw [Option.some.injEq] at hprd
      rw [← hprd, CAPITAL_GAINS_TAX_PRIMARY_RESIDENCE_DEDUCTION, hpr]
    case isFalse hv => exact absurd hprd (by simp)
  · intro hv
    rw [RealEstateCalc.calcAllFields]
    obtain ⟨recur, hr⟩ := computeGo_eq_body today (s.inputs.calc_year + 1).toNat s.inputs
    rw [hr]
    refine computeBody_prd_none ?_
    rw [REInputs.primaryResidenceDeductionOpt, if_neg (by rw [hpr]; exact hv)]

/-! ## Claim C4: the home loan deduction -/

/-- C4.  After a successful recomputation the home loan deduction is zero
unless the scenario is a primary residence with calc year below 10, size
above 50, a (kept) mortgage whose tenor exceeds the calc year, and an
attached tax profile with stored taxable income below 30,000,000; when all
conditions hold it is the integer truncation of the minimum of the base
amount (400,000 for a new property, else 200,000) and the remaining loan
balance (the sum of the amortization-schedule entries from month
calc_year × 12 on). -/
theorem claim_home_loan_deduction (today : Date) (s s' : RealEstateCalc)
    (h : RealEstateCalc.calcAllFields today s = some s') :
    s'.home_loan_deduction =
      match s'.inputs.mortgage, s'.inputs.income_tax_calculator with
      | some m, some itc =>
          if s'.inputs.is_primary_residence ≠ 0 ∧ s'.inputs.calc_year < 10 ∧
              50 < s'.inputs.size ∧ s'.inputs.calc_year < (m.tenor : ℤ) ∧
              itc.taxable_income < 30000000 then
            pyInt (min (if s'.inputs.age = 0 then (400000 : ℚ) else 200000)
              (pySliceFrom m.amortization_schedule (s'.inputs.calc_year * 12)).sum)
          else 0
      | _, _ => 0 := by
  rw [RealEstateCalc.calcAllFields] at h
  obtain ⟨recur, hr⟩ := computeGo_eq_body today (s.inputs.calc_year + 1).toNat s.inputs
  rw [hr] at h
  obtain ⟨it, _, cum, _, sp, _, prd, _, hm⟩ := computeBody_some h
  subst hm
  show (s.inputs.resolve today).homeLoanDeduction = _
  rw [REInputs.homeLoanDeduction]
  rfl

/-! ## Claim C1: the cumulative-net-income recurrence -/

/-- C1.  For a successfully recomputed scenario with calc year Y:
cumulative net income is 0 when Y < 0; equals the year-0 net income after
taxes when Y = 0; and for Y ≥ 1 equals net income after taxes at Y plus the
cumulative net income of the fully recomputed deep copy of the scenario
with calc year Y − 1 (all other inputs unchanged). -/
theorem claim_cumulative_net_income_recurrence (today : Date)
    (s s' : RealEstateCalc) (h : RealEstateCalc.calcAllFields today s = some s') :
    (s.inputs.calc_year < 0 → s'.cumulative_net_income = 0) ∧
    (s.inputs.calc_year = 0 →
      s'.cumulative_net_income = s'.net_income_after_taxes) ∧
    (1 ≤ s.inputs.calc_year →
      (RealEstateCalc.calcAllFields today
          { s' with inputs :=
            { s'.inputs with calc_year := s'.inputs.calc_year - 1 } }).map
        RealEstateCalc.cumulative_net_income =
      some (s'.cumulative_net_income - s'.net_income_after_taxes)) := by
  rw [RealEstateCalc.calcAllFields] at h
  refine ⟨fun hy => computeGo_cum_neg h hy, fun hy => ?_, fun hy => ?_⟩
  · have hnat : (s.inputs.calc_year + 1).toNat = 1 := by omega
    rw [hnat] at h
    have h' : computeBody today (computeGo today 0) s.inputs = some s' := h
    obtain ⟨it, _, cum, hc, sp, _, prd, _, hm⟩ := computeBody_some h'
    rw [if_neg (by rw [(REInputs.resolve_preserves today s.inputs).1]; omega)] at hc
    obtain ⟨t, ht, hval⟩ := Option.map_eq_some'.mp hc
    have ht0 : t.cumulative_net_income = 0 := computeGo_cum_neg ht (by
      show (s.inputs.resolve today).calc_year - 1 < 0
      rw [(REInputs.resolve_preserves today s.inputs).1]
      omega)
    subst hm
    show cum = (s.inputs.resolve today).netIncomeAfterTaxes it
    rw [← hval, ht0, add_zero]
  · have hnat : (s.inputs.calc_year + 1).toNat = s.inputs.calc_year.toNat + 1 := by
      omega
    rw [hnat] at h
    have h' : computeBody today (computeGo today s.inputs.calc_year.toNat)
        s.inputs = some s' := h
    obtain ⟨it, _, cum, hc, sp, _, prd, _, hm⟩ := computeBody_some h'
    rw [if_neg (by rw [(REInputs.resolve_preserves today s.inputs).1]; omega)] at hc
    obtain ⟨t, ht, hval⟩ := Option.map_eq_some'.mp hc
    subst hm
    have hgoal : RealEstateCalc.calcAllFields today
        { (s.inputs.resolve today).mkResult today it cum sp prd with inputs :=
          { ((s.inputs.resolve today).mkResult today it cum sp prd).inputs with
            calc_year := ((s.inputs.resolve today).mkResult today it cum sp
              prd).inputs.calc_year - 1 } } =
        computeGo today s.inputs.calc_year.toNat
          { s.inputs.resolve today with
            calc_year := (s.inputs.resolve today).calc_year - 1 } := by
      rw [RealEstateCalc.calcAllFields]
      show computeGo today (((s.inputs.resolve today).calc_year - 1 + 1)).toNat
        { s.inputs.resolve today with
          calc_year := (s.inputs.resolve today).calc_year - 1 } = _
      rw [(REInputs.resolve_preserves today s.inputs).1,
        show s.inputs.calc_year - 1 + 1 = s.inputs.calc_year from by ring]
    rw [hgoal, ht, Option.map_some', Option.some.injEq]
    show t.cumulative_net_income =
      cum - (s.inputs.resolve today).netIncomeAfterTaxes it
    rw [← hval]
    ring

/-! ## Concrete evaluations shared by the witnesses -/

theorem computeGo_zero (today : Date) (i : REInputs) :
    computeGo today 0 i = computeBody today (fun _ => none) i := rfl

theorem computeGo_one (today : Date) (i : REInputs) :
    computeGo today 1 i = computeBody today (computeBody today (fun _ => none)) i := rfl

theorem baseRE_isSome : (RealEstateCalc.calcAllFields DATE0 baseRE).isSome = true := by
  have h0 : RealEstateCalc.calcAllFields DATE0 baseRE =
      computeBody DATE0 (computeGo DATE0 0) baseREI := rfl
  rw [h0]
  norm_num [computeBody, computeGo_zero, REInputs.resolve, REInputs.resolveDefaults,
    REInputs.updateMortgage, REInputs.purchasePriceFinanced, pyInt,
    REInputs.incomeTaxOpt, REInputs.netIncomeAfterTaxes, REInputs.incomeTaxRealEstate,
    REInputs.netIncomeBeforeTaxes, REInputs.totalIncome, REInputs.rentalIncome,
    REInputs.renewalIncome, REInputs.totalExpense, REInputs.maintenanceExpense,
    REInputs.monthlyFeesAnnualized, REInputs.rentalManagementTotalExpense,
    REInputs.rentalManagementRenewalExpense, REInputs.rentalManagementRentalExpense,
    REInputs.propertyTaxExpense, REInputs.primaryResidenceDeductionOpt,
    REInputs.mkResult, REInputs.netIncomeTaxable, REInputs.depreciationR,
    REInputs.depreciationForYear, REInputs.depreciationYears,
    REInputs.depreciationAnnual, REInputs.depreciationPercentage,
    REInputs.purchasePriceBuilding, REInputs.homeLoanDeduction,
    baseREI, DATE0, RENEWAL_INCOME_RATE_DEFAULT, RENTAL_MANAGEMENT_FEE_DEFAULT,
    RENTAL_MANAGEMENT_RENEWAL_DEFAULT, CONSUMPTION_TAX,
    CAPITAL_GAINS_TAX_PRIMARY_RESIDENCE_DEDUCTION]

theorem baseRE1_isSome : (RealEstateCalc.calcAllFields DATE0 baseRE1).isSome = true := by
  have h0 : RealEstateCalc.calcAllFields DATE0 baseRE1 =
      computeBody DATE0 (computeGo DATE0 1) { baseREI with calc_year := 1 } := rfl
  rw [h0]
  norm_num [computeBody, computeGo_one, computeGo_zero, REInputs.resolve,
    REInputs.resolveDefaults,
    REInputs.updateMortgage, REInputs.purchasePriceFinanced, pyInt,
    REInputs.incomeTaxOpt, REInputs.netIncomeAfterTaxes, REInputs.incomeTaxRealEstate,
    REInputs.netIncomeBeforeTaxes, REInputs.totalIncome, REInputs.rentalIncome,
    REInputs.renewalIncome, REInputs.totalExpense, REInputs.maintenanceExpense,
    REInputs.monthlyFeesAnnualized, REInputs.rentalManagementTotalExpense,
    REInputs.rentalManagementRenewalExpense, REInputs.rentalManagementRentalExpense,
    REInputs.propertyTaxExpense, REInputs.primaryResidenceDeductionOpt,
    REInputs.mkResult, REInputs.netIncomeTaxable, REInputs.depreciationR,
    REInputs.depreciationForYear, REInputs.depreciationYears,
    REInputs.depreciationAnnual, REInputs.depreciationPercentage,
    REInputs.purchasePriceBuilding, REInputs.homeLoanDeduction,
    baseREI, DATE0, RENEWAL_INCOME_RATE_DEFAULT, RENTAL_MANAGEMENT_FEE_DEFAULT,
    RENTAL_MANAGEMENT_RENEWAL_DEFAULT, CONSUMPTION_TAX,
    CAPITAL_GAINS_TAX_PRIMARY_RESIDENCE_DEDUCTION]

theorem baseREitc_isSome :
    (RealEstateCalc.calcAllFields DATE0 baseREitc).isSome = true := by
  have h0 : RealEstateCalc.calcAllFields DATE0 baseREitc =
      computeBody DATE0 (computeGo DATE0 0)
        { baseREI with income_tax_calculator := some baseITC } := rfl
  rw [h0]
  norm_num [computeBody, computeGo_zero, REInputs.resolve, REInputs.resolveDefaults,
    REInputs.updateMortgage, REInputs.purchasePriceFinanced, pyInt,
    REInputs.incomeTaxOpt, REInputs.netIncomeAfterTaxes, REInputs.incomeTaxRealEstate,
    REInputs.netIncomeBeforeTaxes, REInputs.totalIncome, REInputs.rentalIncome,
    REInputs.renewalIncome, REInputs.totalExpense, REInputs.maintenanceExpense,
    REInputs.monthlyFeesAnnualized, REInputs.rentalManagementTotalExpense,
    REInputs.rentalManagementRenewalExpense, REInputs.rentalManagementRentalExpense,
    REInputs.propertyTaxExpense, REInputs.primaryResidenceDeductionOpt,
    REInputs.mkResult, REInputs.netIncomeTaxable, REInputs.depreciationR,
    REInputs.depreciationForYear, REInputs.depreciationYears,
    REInputs.depreciationAnnual, REInputs.depreciationPercentage,
    REInputs.purchasePriceBuilding, REInputs.homeLoanDeduction, REInputs.calcDate,
    Date.addYears, Date.isLeap,
    IncomeTaxCalc.calcAllFields, lookupEmpRule, lookupNatBracket,
    EMPLOYMENT_INCOME_FOR_TAX_TABLE, NATIONAL_INCOME_TAX_TABLE,
    IncomeTaxCalc.eair, IncomeTaxCalc.taxableIncomeR,
    IncomeTaxCalc.totalIncomeForTaxR, IncomeTaxCalc.employmentIncomeForTaxR,
    IncomeTaxCalc.deductionTotalR, IncomeTaxCalc.deductionDependentsR,
    IncomeTaxCalc.socialSecurityExpenseR, HEALTH_INSURANCE_RATE,
    SOCIAL_PENSION_RATE, DEDUCTION_BASIC, DEDUCTION_PER_DEPENDENT,
    LEGAL_RENT_RATE, List.find?, baseITC,
    baseREI, DATE0, RENEWAL_INCOME_RATE_DEFAULT, RENTAL_MANAGEMENT_FEE_DEFAULT,
    RENTAL_MANAGEMENT_RENEWAL_DEFAULT, CONSUMPTION_TAX,
    CAPITAL_GAINS_TAX_PRIMARY_RESIDENCE_DEDUCTION]

/-- C9 witness: recomputing the recomputed default scenario returns it
unchanged. -/
theorem claim_recompute_idempotent_witness :
    RealEstateCalc.calcAllFields DATE0
        ((RealEstateCalc.calcAllFields DATE0 baseRE).getD baseRE) =
      some ((RealEstateCalc.calcAllFields DATE0 baseRE).getD baseRE) :=
  claim_recompute_idempotent DATE0 baseRE _ (optSomeGetD baseRE baseRE_isSome)

/-- C8 witness: the attached profile is returned unchanged. -/
theorem claim_attached_profile_unchanged_witness :
    ((RealEstateCalc.calcAllFields DATE0 baseREitc).getD
        baseRE).inputs.income_tax_calculator = some baseITC :=
  claim_attached_profile_unchanged DATE0 baseREitc _ baseITC rfl
    (optSomeGetD baseRE baseREitc_isSome)

/-- C7 witness: deduction 0 at code 0; recomputation fails at code 3. -/
theorem claim_primary_residence_deduction_validation_witness :
    ((RealEstateCalc.calcAllFields DATE0 baseRE).getD
        baseRE).capital_gains_tax_primary_residence_deduction = 0 ∧
    RealEstateCalc.calcAllFields DATE0
      { baseRE with inputs := { baseREI with is_primary_residence := 3 } } = none := by
  constructor
  · have h := ((claim_primary_residence_deduction_validation DATE0 baseRE).1 _
      (optSomeGetD baseRE baseRE_isSome)).2
    simpa [baseRE, baseREI] using h
  · exact (claim_primary_residence_deduction_validation DATE0
      { baseRE with inputs := { baseREI with is_primary_residence := 3 } }).2
      (by decide)

/-- C4 witness: without a mortgage the home loan deduction is 0. -/
theorem claim_home_loan_deduction_witness :
    ((RealEstateCalc.calcAllFields DATE0 baseRE).getD baseRE).home_loan_deduction = 0 := by
  have h := claim_home_loan_deduction DATE0 baseRE _ (optSomeGetD baseRE baseRE_isSome)
  have h2 : RealEstateCalc.calcAllFields DATE0 baseRE =
      some ((RealEstateCalc.calcAllFields DATE0 baseRE).getD baseRE) :=
    optSomeGetD baseRE baseRE_isSome
  have h3 : computeGo DATE0 (baseRE.inputs.calc_year + 1).toNat baseRE.inputs =
      some ((RealEstateCalc.calcAllFields DATE0 baseRE).getD baseRE) := h2
  have hm : ((RealEstateCalc.calcAllFields DATE0 baseRE).getD baseRE).inputs.mortgage =
      none := by
    rw [computeGo_inputs h3]
    norm_num [REInputs.resolve, REInputs.resolveDefaults, REInputs.updateMortgage,
      REInputs.purchasePriceFinanced, pyInt, baseRE, baseREI]
  rw [hm] at h
  simpa using h

/-- C1 witness: the recurrence at calc year 1. -/
theorem claim_cumulative_net_income_recurrence_witness :
    (RealEstateCalc.calcAllFields DATE0
        { (RealEstateCalc.calcAllFields DATE0 baseRE1).getD baseRE with inputs :=
          { ((RealEstateCalc.calcAllFields DATE0 baseRE1).getD baseRE).inputs with
            calc_year := ((RealEstateCalc.calcAllFields DATE0 baseRE1).getD
              baseRE).inputs.calc_year - 1 } }).map
      RealEstateCalc.cumulative_net_income =
      some (((RealEstateCalc.calcAllFields DATE0 baseRE1).getD
          baseRE).cumulative_net_income -
        ((RealEstateCalc.calcAllFields DATE0 baseRE1).getD
          baseRE).net_income_after_taxes) :=
  (claim_cumulative_net_income_recurrence DATE0 baseRE1 _
    (optSomeGetD baseRE baseRE1_isSome)).2.2 (by decide)
